import Mathlib

/-!
Verification of the query-tracker service (src/main.py) against its
specification.  The Python module is shallowly embedded: JSON-serializable
Python values become the inductive `PyVal`, the persisted data file
(`data/queries.json`) becomes the state type `DataFile`, and each function of
the module becomes a Lean function over those types.  Python exceptions are
modelled with `Except PyExn`; an exception the source code does not catch
propagates as an `Except.error`.
-/

/-- A Python value as it flows through the tracker: JSON scalars, lists,
dicts (association lists, insertion-ordered as in Python), plus a raw
`bytes` object (the middleware stores `await request.body()` undecoded). -/
inductive PyVal where
  | null : PyVal
  | bool : Bool → PyVal
  | num : Int → PyVal
  | str : String → PyVal
  | arr : List PyVal → PyVal
  | obj : List (String × PyVal) → PyVal
  | pybytes : List Nat → PyVal

/-- The Python exceptions that the embedded code can raise. -/
inductive PyExn where
  | permissionError : PyExn
  | attributeError : PyExn
  | typeError : PyExn
  deriving DecidableEq

/-- HTTP methods relevant to the routes of src/main.py. -/
inductive Method where
  | GET | POST | PUT | PATCH | DELETE
  deriving DecidableEq

/-- The string FastAPI exposes as `request.method`. -/
def Method.toStr : Method → String
  | .GET => "GET"
  | .POST => "POST"
  | .PUT => "PUT"
  | .PATCH => "PATCH"
  | .DELETE => "DELETE"

/-- State of the persisted document `data/queries.json`, seen through the
operations `load_queries` performs on it: the file may be absent
(`os.path.exists` is false), present but unreadable (`open` raises, e.g.
`PermissionError`), readable but not well-formed JSON (`json.load` raises
`json.JSONDecodeError`), or readable with `json.load` returning a value. -/
inductive DataFile where
  | absent : DataFile
  | unreadable : DataFile
  | badJson : DataFile
  | hasJson : PyVal → DataFile

/-- `load_queries` (src/main.py lines 30-38): returns the parsed file
content; returns `[]` when the file is absent or when `json.JSONDecodeError`
or `FileNotFoundError` is raised.  Any other exception — e.g. the
`PermissionError` of an unreadable file — is not in the `except` clause and
propagates. -/
def load_queries : DataFile → Except PyExn PyVal
  | .absent => .ok (.arr [])
  | .unreadable => .error .permissionError
  | .badJson => .ok (.arr [])
  | .hasJson v => .ok v

/-- `save_query` (src/main.py lines 41-51): loads the current list, appends
`query_data`, keeps only the last 100 entries when the length exceeds 100,
and writes the result back.  `queries.append` on a loaded value that is not a
Python list raises `AttributeError`. -/
def save_query (query_data : PyVal) (st : DataFile) : Except PyExn DataFile := do
  let queries ← load_queries st
  match queries with
  | .arr l =>
    let appended := l ++ [query_data]
    let kept := if 100 < appended.length
      then appended.drop (appended.length - 100) else appended
    .ok (.hasJson (.arr kept))
  | _ => .error .attributeError

/-- An inbound HTTP request as the handlers see it.  The framework's fallible
body parsers are black boxes; a request carries the outcome each of them
would produce on its payload: `jsonBody` is `some v` when `await
request.json()` succeeds with `v` and `none` when it raises; `formBody`
likewise for `dict(await request.form())`.  `bodyBytes` is the raw payload
`await request.body()`. -/
structure Request where
  method : Method
  path : String
  url : String
  queryParams : List (String × String)
  headers : List (String × String)
  bodyBytes : List Nat
  jsonBody : Option PyVal
  formBody : Option (List (String × String))
  clientHost : Option String

/-- Whether a byte is a UTF-8 continuation byte (0x80-0xBF). -/
def isCont (b : Nat) : Bool := 0x80 ≤ b && b ≤ 0xBF

/-- UTF-8 decoding of a byte list, CPython style: on an ill-formed sequence
the maximal valid subpart is consumed and `onErr` is emitted in its place
(`onErr = []` models `errors="ignore"`, `onErr = [replacement char]` models
`errors="replace"`).  Surrogate and overlong encodings are rejected as in
CPython.  `fuel` bounds the number of decoding steps; since every step
consumes at least one byte, `bs.length` steps always suffice, which is what
`utf8Decode` below supplies. -/
def utf8DecodeGo (onErr : List Char) : Nat → List Nat → List Char
  | 0, _ => []
  | _ + 1, [] => []
  | fuel + 1, b :: rest =>
    if b < 0x80 then
      Char.ofNat b :: utf8DecodeGo onErr fuel rest
    else if 0xC2 ≤ b && b ≤ 0xDF then
      match rest with
      | b2 :: rest2 =>
        if isCont b2 then
          Char.ofNat ((b - 0xC0) * 0x40 + (b2 - 0x80)) :: utf8DecodeGo onErr fuel rest2
        else onErr ++ utf8DecodeGo onErr fuel (b2 :: rest2)
      | [] => onErr
    else if 0xE0 ≤ b && b ≤ 0xEF then
      match rest with
      | b2 :: rest2 =>
        if (if b = 0xE0 then 0xA0 ≤ b2 && b2 ≤ 0xBF
            else if b = 0xED then 0x80 ≤ b2 && b2 ≤ 0x9F
            else isCont b2) then
          match rest2 with
          | b3 :: rest3 =>
            if isCont b3 then
              Char.ofNat ((b - 0xE0) * 0x1000 + (b2 - 0x80) * 0x40 + (b3 - 0x80))
                :: utf8DecodeGo onErr fuel rest3
            else onErr ++ utf8DecodeGo onErr fuel (b3 :: rest3)
          | [] => onErr
        else onErr ++ utf8DecodeGo onErr fuel (b2 :: rest2)
      | [] => onErr
    else if 0xF0 ≤ b && b ≤ 0xF4 then
      match rest with
      | b2 :: rest2 =>
        if (if b = 0xF0 then 0x90 ≤ b2 && b2 ≤ 0xBF
            else if b = 0xF4 then 0x80 ≤ b2 && b2 ≤ 0x8F
            else isCont b2) then
          match rest2 with
          | b3 :: rest3 =>
            if isCont b3 then
              match rest3 with
              | b4 :: rest4 =>
                if isCont b4 then
                  Char.ofNat ((b - 0xF0) * 0x40000 + (b2 - 0x80) * 0x1000
                      + (b3 - 0x80) * 0x40 + (b4 - 0x80))
                    :: utf8DecodeGo onErr fuel rest4
                else onErr ++ utf8DecodeGo onErr fuel (b4 :: rest4)
              | [] => onErr
            else onErr ++ utf8DecodeGo onErr fuel (b3 :: rest3)
          | [] => onErr
        else onErr ++ utf8DecodeGo onErr fuel (b2 :: rest2)
      | [] => onErr
    else onErr ++ utf8DecodeGo onErr fuel rest

/-- UTF-8 decoding of a whole byte list with error policy `onErr`. -/
def utf8Decode (onErr : List Char) (bs : List Nat) : List Char :=
  utf8DecodeGo onErr bs.length bs

/-- `payload.decode("utf-8", errors="ignore")`: undecodable bytes are
dropped. -/
def pyDecodeIgnore (bs : List Nat) : String := String.mk (utf8Decode [] bs)

/-- `payload.decode("utf-8", errors="replace")`: undecodable bytes are
replaced with U+FFFD. -/
def pyDecodeReplace (bs : List Nat) : String :=
  String.mk (utf8Decode [Char.ofNat 0xFFFD] bs)

/-- A Python dict of string keys and string values, as a `PyVal`. -/
def strObj (kvs : List (String × String)) : PyVal :=
  .obj (kvs.map fun kv => (kv.1, PyVal.str kv.2))

/-- `dict(request.query_params)` as a `PyVal`. -/
def qpObj (req : Request) : PyVal := strObj req.queryParams

/-- `request.client.host if request.client else None`. -/
def clientIpVal (req : Request) : PyVal :=
  match req.clientHost with
  | some h => .str h
  | none => .null

/-- The `query_data` dict both capture sites build (src/main.py lines 79-89
and 140-150), given the generated id, the timestamp and the parsed body. -/
def mkQueryData (req : Request) (query_id timestamp : String) (body : PyVal) : PyVal :=
  .obj [("query_id", .str query_id),
        ("timestamp", .str timestamp),
        ("method", .str req.method.toStr),
        ("path", .str req.path),
        ("headers", strObj req.headers),
        ("query_params", qpObj req),
        ("body", body),
        ("client_ip", clientIpVal req),
        ("url", .str req.url)]

/-- The outcome of `await request.json()` as a guarded stage: `Except.error`
when the parser raises. -/
def requestJson (req : Request) : Except Unit PyVal :=
  match req.jsonBody with
  | some v => .ok v
  | none => .error ()

/-- The outcome of `dict(await request.form())` as a guarded stage. -/
def requestForm (req : Request) : Except Unit (List (String × String)) :=
  match req.formBody with
  | some kvs => .ok kvs
  | none => .error ()

/-- Body parsing of `track_query_post` (src/main.py lines 130-137): try
`request.json()`; on exception try `dict(request.form())`; on exception fall
back to `{"raw_body": (await request.body()).decode("utf-8",
errors="ignore")}`.  Every stage's exception is caught, so the whole parse is
total. -/
def parseBody (req : Request) : PyVal :=
  match requestJson req with
  | .ok v => v
  | .error _ =>
    match requestForm req with
    | .ok kvs => strObj kvs
    | .error _ => .obj [("raw_body", .str (pyDecodeIgnore req.bodyBytes))]

/-- Body parsing of the middleware `log_queries` (src/main.py lines 68-76):
same fallback chain, but the last resort stores the raw bytes object
undecoded. -/
def parseBodyMw (req : Request) : PyVal :=
  match requestJson req with
  | .ok v => v
  | .error _ =>
    match requestForm req with
    | .ok kvs => strObj kvs
    | .error _ => .obj [("raw_body", .pybytes req.bodyBytes)]

/-- `track_query_post` (src/main.py lines 117-163): parse the body with the
fallback chain, persist the `query_data` record, and answer with the
acknowledgement dict `{message, query_id, timestamp, query_params, body}`.
`query_id` and `timestamp` are the freshly generated values, passed in
explicitly here. -/
def track_query_post (query_id timestamp : String) (req : Request)
    (st : DataFile) : Except PyExn (PyVal × DataFile) :=
  match save_query (mkQueryData req query_id timestamp (parseBody req)) st with
  | .ok st' =>
    .ok (.obj [("message", .str "Query tracked successfully"),
               ("query_id", .str query_id),
               ("timestamp", .str timestamp),
               ("query_params", qpObj req),
               ("body", parseBody req)], st')
  | .error e => .error e

/-- `track_query_put` (src/main.py lines 166-169): delegates to
`track_query_post`. -/
def track_query_put (query_id timestamp : String) (req : Request)
    (st : DataFile) : Except PyExn (PyVal × DataFile) :=
  track_query_post query_id timestamp req st

/-- `track_query_patch` (src/main.py lines 172-175): delegates to
`track_query_post`. -/
def track_query_patch (query_id timestamp : String) (req : Request)
    (st : DataFile) : Except PyExn (PyVal × DataFile) :=
  track_query_post query_id timestamp req st

/-- `track_query_get` (src/main.py lines 107-114): the handler body is
`pass`, i.e. it returns `None` and leaves the store untouched. -/
def track_query_get (_req : Request) (st : DataFile) :
    Except PyExn (PyVal × DataFile) :=
  .ok (.null, st)

/-- The middleware `log_queries` (src/main.py lines 54-104): when the request
is `GET /track-query` it captures the request itself — the body branch only
parses for POST/PUT/PATCH, so here `body` stays `{}` — persists the record,
and returns `{message, query_id, timestamp, query_params}` without invoking
`call_next`.  Every other request is passed to `call_next`, i.e. to normal
routing. -/
def log_queries
    (call_next : Request → DataFile → Except PyExn (PyVal × DataFile))
    (query_id timestamp : String) (req : Request) (st : DataFile) :
    Except PyExn (PyVal × DataFile) :=
  if req.path = "/track-query" ∧ req.method = Method.GET then
    match save_query (mkQueryData req query_id timestamp
        (if req.method = Method.POST ∨ req.method = Method.PUT
          ∨ req.method = Method.PATCH then parseBodyMw req else PyVal.obj [])) st with
    | .ok st' =>
      .ok (.obj [("message", .str "Query tracked successfully"),
                 ("query_id", .str query_id),
                 ("timestamp", .str timestamp),
                 ("query_params", qpObj req)], st')
    | .error e => .error e
  else call_next req st

/-- Python `len` on a `PyVal`: defined on sized values, `TypeError`
otherwise. -/
def pyLen : PyVal → Except PyExn Int
  | .arr l => .ok l.length
  | .obj kvs => .ok kvs.length
  | .str s => .ok s.length
  | .pybytes bs => .ok bs.length
  | _ => .error .typeError

/-- `get_queries_api` (src/main.py lines 190-196): loads the stored queries
and answers `{"queries": queries, "count": len(queries)}`. -/
def get_queries_api (st : DataFile) : Except PyExn PyVal := do
  let queries ← load_queries st
  let n ← pyLen queries
  .ok (.obj [("queries", queries), ("count", .num n)])

/-- `clear_queries` (src/main.py lines 199-204): unconditionally overwrites
the file with `[]` and acknowledges. -/
def clear_queries (_st : DataFile) : PyVal × DataFile :=
  (.obj [("message", .str "All queries cleared successfully")],
   .hasJson (.arr []))

/-- A sequence of `save_query` calls performed one after the other,
propagating the first uncaught exception. -/
def appendAll (rs : List PyVal) (st : DataFile) : Except PyExn DataFile :=
  match rs with
  | [] => .ok st
  | r :: rs' =>
    match save_query r st with
    | .ok st' => appendAll rs' st'
    | .error e => .error e

/-- Field lookup in a `PyVal` dict (Python `d[k]`, as an `Option`). -/
def getField (k : String) : PyVal → Option PyVal
  | .obj kvs => kvs.lookup k
  | _ => none

/-- Records used in the concrete examples: 105 numbered entries. -/
def demoRecords : List PyVal :=
  List.map (fun i => PyVal.num (Int.ofNat i)) (List.range 105)

theorem demoRecords_length : demoRecords.length = 105 := by
  unfold demoRecords
  rw [List.length_map, List.length_range]

/-- The truncation `queries[-100:]` of src/main.py line 48, with its guard
folded in: keeping the last 100 elements is dropping `length - 100` from the
front, also when the guard is false. -/
theorem trunc_eq_drop (l : List PyVal) :
    (if 100 < l.length then l.drop (l.length - 100) else l)
      = l.drop (l.length - 100) := by
  split
  · rfl
  · rename_i h
    rw [Nat.sub_eq_zero_of_le (by omega), List.drop_zero]

/-- Evaluation of `save_query` on a state holding a list. -/
theorem save_query_arr (r : PyVal) (l : List PyVal) :
    save_query r (DataFile.hasJson (.arr l)) =
      .ok (.hasJson (.arr ((l ++ [r]).drop ((l ++ [r]).length - 100)))) := by
  rw [← trunc_eq_drop]
  rfl

/-- Evaluation of `save_query` on any state that loads as the list `l`. -/
theorem save_query_of_load (r : PyVal) (st : DataFile) (l : List PyVal)
    (hld : load_queries st = .ok (.arr l)) :
    save_query r st =
      .ok (.hasJson (.arr ((l ++ [r]).drop ((l ++ [r]).length - 100)))) := by
  have hst : save_query r st = save_query r (DataFile.hasJson (.arr l)) := by
    unfold save_query
    rw [hld]
    rfl
  rw [hst, save_query_arr]

/-- Dropping to the last 100 after an earlier drop to the last 100 is the
same as one final drop to the last 100. -/
theorem drop100_absorb {α : Type} (m rs : List α) :
    ((m.drop (m.length - 100)) ++ rs).drop
        (((m.drop (m.length - 100)) ++ rs).length - 100)
      = (m ++ rs).drop ((m ++ rs).length - 100) := by
  rw [← List.drop_append_of_le_length (Nat.sub_le m.length 100), List.drop_drop]
  have h : m.length - 100 + (((m ++ rs).drop (m.length - 100)).length - 100)
      = (m ++ rs).length - 100 := by
    simp only [List.length_drop, List.length_append]
    omega
  rw [h]

/-- Running a whole sequence of `save_query` calls from a list state within
the cap truncates once at the end. -/
theorem appendAll_arr (rs : List PyVal) : ∀ l : List PyVal, l.length ≤ 100 →
    appendAll rs (.hasJson (.arr l)) =
      .ok (.hasJson (.arr ((l ++ rs).drop ((l ++ rs).length - 100)))) := by
  induction rs with
  | nil =>
    intro l hl
    simp only [appendAll, List.append_nil]
    rw [Nat.sub_eq_zero_of_le hl, List.drop_zero]
  | cons r rs' ih =>
    intro l hl
    simp only [appendAll, save_query_arr]
    rw [ih _ (by simp only [List.length_drop]; omega)]
    rw [drop100_absorb (l ++ [r]) rs']
    rw [List.append_assoc, List.singleton_append]

/-- Running a sequence of `save_query` calls from the empty store succeeds
and leaves the last 100 records. -/
theorem appendAll_absent (rs : List PyVal) :
    ∃ st, appendAll rs DataFile.absent = .ok st ∧
      load_queries st = .ok (.arr (rs.drop (rs.length - 100))) := by
  cases rs with
  | nil => exact ⟨.absent, rfl, rfl⟩
  | cons r rs' =>
    refine ⟨DataFile.hasJson (.arr ((r :: rs').drop ((r :: rs').length - 100))),
      ?_, rfl⟩
    have h1 : save_query r DataFile.absent = .ok (.hasJson (.arr [r])) := rfl
    simp only [appendAll, h1]
    exact appendAll_arr rs' [r] (by simp)

/-- C1: starting from an empty log, any sequence of appends settles to a
persisted log holding exactly the most recent `min n 100` appended records
in insertion order, hence of length at most 100; in particular the 105
`demoRecords`, appended one at a time, leave exactly 100 records with the
oldest 5 evicted. -/
theorem spec_C1 :
    (∀ rs : List PyVal, ∃ st, appendAll rs DataFile.absent = .ok st ∧
      load_queries st = .ok (.arr (rs.drop (rs.length - 100))) ∧
      (rs.drop (rs.length - 100)).length = min rs.length 100 ∧
      (rs.drop (rs.length - 100)).length ≤ 100) ∧
    (∃ st, appendAll demoRecords DataFile.absent = .ok st ∧
      load_queries st = .ok (.arr (demoRecords.drop 5)) ∧
      (demoRecords.drop 5).length = 100) := by
  have hgen : ∀ rs : List PyVal, ∃ st, appendAll rs DataFile.absent = .ok st ∧
      load_queries st = .ok (.arr (rs.drop (rs.length - 100))) ∧
      (rs.drop (rs.length - 100)).length = min rs.length 100 ∧
      (rs.drop (rs.length - 100)).length ≤ 100 := by
    intro rs
    obtain ⟨st, h1, h2⟩ := appendAll_absent rs
    refine ⟨st, h1, h2, ?_, ?_⟩ <;> simp only [List.length_drop] <;> omega
  refine ⟨hgen, ?_⟩
  obtain ⟨st, h1, h2, h3, _⟩ := hgen demoRecords
  rw [demoRecords_length] at h2 h3
  refine ⟨st, h1, ?_, ?_⟩
  · exact h2
  · rw [show (105 : Nat) - 100 = 5 from rfl] at h3
    rw [h3]
    omega

/-- C10: a single append to a persisted log already holding more than 100
records truncates the whole loaded list, leaving exactly the most recent
100 records. -/
theorem spec_C10 : ∀ (l : List PyVal) (r : PyVal) (st : DataFile),
    load_queries st = .ok (.arr l) → 100 < l.length →
    save_query r st =
      .ok (.hasJson (.arr ((l ++ [r]).drop ((l ++ [r]).length - 100)))) ∧
    ((l ++ [r]).drop ((l ++ [r]).length - 100)).length = 100 := by
  intro l r st hld hlen
  refine ⟨save_query_of_load r st l hld, ?_⟩
  simp only [List.length_drop, List.length_append, List.length_cons,
    List.length_nil]
  omega

/-- Concrete instance for spec_C10: a store holding 105 records is cut back
to exactly 100 by one append. -/
theorem spec_C10_witness :
    load_queries (DataFile.hasJson (PyVal.arr demoRecords))
      = .ok (.arr demoRecords) ∧
    100 < demoRecords.length ∧
    (save_query (PyVal.str "new") (DataFile.hasJson (PyVal.arr demoRecords)) =
      .ok (.hasJson (.arr ((demoRecords ++ [PyVal.str "new"]).drop
        ((demoRecords ++ [PyVal.str "new"]).length - 100)))) ∧
    ((demoRecords ++ [PyVal.str "new"]).drop
      ((demoRecords ++ [PyVal.str "new"]).length - 100)).length = 100) :=
  ⟨rfl, by rw [demoRecords_length]; omega,
    spec_C10 demoRecords (PyVal.str "new")
      (DataFile.hasJson (PyVal.arr demoRecords)) rfl
      (by rw [demoRecords_length]; omega)⟩

/-- C6: after `save_query r` on any state that loads as a record list, a
`load_queries` returns a list whose last element is `r`. -/
theorem spec_C6 : ∀ (r : PyVal) (st : DataFile) (l : List PyVal),
    load_queries st = .ok (.arr l) →
    ∃ st' l', save_query r st = .ok st' ∧ load_queries st' = .ok (.arr l') ∧
      l'.getLast? = some r := by
  intro r st l hld
  refine ⟨_, _, save_query_of_load r st l hld, rfl, ?_⟩
  have hd : (l ++ [r]).length - 100 ≤ l.length := by
    simp only [List.length_append, List.length_cons, List.length_nil]
    omega
  rw [List.drop_append_of_le_length hd, List.getLast?_concat]

/-- Concrete instance for spec_C6: appending to the empty store and loading
gives back the record as the last element. -/
theorem spec_C6_witness :
    ∃ st' l', save_query (PyVal.str "r0") DataFile.absent = .ok st' ∧
      load_queries st' = .ok (.arr l') ∧ l'.getLast? = some (PyVal.str "r0") :=
  spec_C6 (PyVal.str "r0") DataFile.absent [] rfl

/-- Evaluation of `track_query_post` on any state that loads as a record
list: the capture succeeds, answers the five-field acknowledgement, and
persists the record. -/
theorem track_query_post_eq (query_id timestamp : String) (req : Request)
    (st : DataFile) (l : List PyVal)
    (hld : load_queries st = .ok (.arr l)) :
    track_query_post query_id timestamp req st =
      .ok (.obj [("message", .str "Query tracked successfully"),
                 ("query_id", .str query_id),
                 ("timestamp", .str timestamp),
                 ("query_params", qpObj req),
                 ("body", parseBody req)],
           .hasJson (.arr ((l ++ [mkQueryData req query_id timestamp (parseBody req)]).drop
             ((l ++ [mkQueryData req query_id timestamp (parseBody req)]).length - 100)))) := by
  unfold track_query_post
  rw [save_query_of_load _ st l hld]

/-- C2: capture never raises for any request payload: both fallible parsing
stages are guarded, the raw-text fallback is total, and for every request —
whatever the outcomes of the JSON and form parsers and whatever the raw
bytes — `track_query_post` returns a well-formed acknowledgement and
record. -/
theorem spec_C2 : ∀ (req : Request) (query_id timestamp : String)
    (st : DataFile) (l : List PyVal), load_queries st = .ok (.arr l) →
    ∃ st', track_query_post query_id timestamp req st =
      .ok (.obj [("message", .str "Query tracked successfully"),
                 ("query_id", .str query_id),
                 ("timestamp", .str timestamp),
                 ("query_params", qpObj req),
                 ("body", parseBody req)], st') := by
  intro req query_id timestamp st l hld
  exact ⟨_, track_query_post_eq query_id timestamp req st l hld⟩

/-- A request with an arbitrary binary payload: both body parsers fail and
the raw bytes are not valid UTF-8. -/
def binReq : Request :=
  ⟨.POST, "/track-query", "http://testserver/track-query", [], [],
   [255, 0, 10], none, none, some "127.0.0.1"⟩

/-- Concrete instance for spec_C2: a binary, undecodable payload still
produces a record and response. -/
theorem spec_C2_witness :
    ∃ st', track_query_post "id-1" "2026-10-12T00:00:00" binReq
        DataFile.absent =
      .ok (.obj [("message", .str "Query tracked successfully"),
                 ("query_id", .str "id-1"),
                 ("timestamp", .str "2026-10-12T00:00:00"),
                 ("query_params", qpObj binReq),
                 ("body", parseBody binReq)], st') :=
  spec_C2 binReq "id-1" "2026-10-12T00:00:00" DataFile.absent [] rfl

/-- C8: `track_query_put` and `track_query_patch` are the very same
computation as `track_query_post` on every input, and that computation
returns the five-field acknowledgement `{message, query_id, timestamp,
query_params, body}` with the parsed body echoed back. -/
theorem spec_C8 :
    (∀ (query_id timestamp : String) (req : Request) (st : DataFile),
      track_query_put query_id timestamp req st
        = track_query_post query_id timestamp req st ∧
      track_query_patch query_id timestamp req st
        = track_query_post query_id timestamp req st) ∧
    (∀ (query_id timestamp : String) (req : Request) (st : DataFile)
      (l : List PyVal), load_queries st = .ok (.arr l) →
      ∃ st', track_query_put query_id timestamp req st =
        .ok (.obj [("message", .str "Query tracked successfully"),
                   ("query_id", .str query_id),
                   ("timestamp", .str timestamp),
                   ("query_params", qpObj req),
                   ("body", parseBody req)], st')) := by
  constructor
  · intro query_id timestamp req st
    exact ⟨rfl, rfl⟩
  · intro query_id timestamp req st l hld
    exact ⟨_, track_query_post_eq query_id timestamp req st l hld⟩

/-- Concrete instance for spec_C8: a PUT with a binary body behaves as the
POST handler and echoes the parsed body. -/
theorem spec_C8_witness :
    track_query_put "id-2" "ts" binReq DataFile.absent
      = track_query_post "id-2" "ts" binReq DataFile.absent ∧
    ∃ st', track_query_put "id-2" "ts" binReq DataFile.absent =
      .ok (.obj [("message", .str "Query tracked successfully"),
                 ("query_id", .str "id-2"),
                 ("timestamp", .str "ts"),
                 ("query_params", qpObj binReq),
                 ("body", parseBody binReq)], st') :=
  ⟨(spec_C8.1 "id-2" "ts" binReq DataFile.absent).1,
   spec_C8.2 "id-2" "ts" binReq DataFile.absent [] rfl⟩

/-- C5: `clear_queries` overwrites the store with the empty list whatever
the prior state — absent, unreadable, corrupt, or holding any value — always
acknowledges with the success message, and a list query right after returns
the empty list with count 0. -/
theorem spec_C5 : ∀ st : DataFile,
    clear_queries st =
      (.obj [("message", .str "All queries cleared successfully")],
       DataFile.hasJson (.arr [])) ∧
    get_queries_api (clear_queries st).2 =
      .ok (.obj [("queries", .arr []), ("count", .num 0)]) := by
  intro st
  exact ⟨rfl, rfl⟩

/-- C9: the list endpoint returns the full stored list unfiltered, in
insertion order, and a count equal to its length; after 3 appends from empty
it returns those 3 records with count 3. -/
theorem spec_C9 :
    (∀ (st : DataFile) (l : List PyVal), load_queries st = .ok (.arr l) →
      get_queries_api st =
        .ok (.obj [("queries", .arr l), ("count", .num l.length)])) ∧
    (∃ st, appendAll [PyVal.str "q1", PyVal.str "q2", PyVal.str "q3"]
        DataFile.absent = .ok st ∧
      get_queries_api st =
        .ok (.obj [("queries", .arr [PyVal.str "q1", PyVal.str "q2", PyVal.str "q3"]),
                   ("count", .num 3)])) := by
  constructor
  · intro st l hld
    unfold get_queries_api
    rw [hld]
    rfl
  · exact ⟨_, rfl, rfl⟩

/-- Concrete instance for spec_C9: a store holding one record lists it with
count 1. -/
theorem spec_C9_witness :
    get_queries_api (DataFile.hasJson (.arr [PyVal.str "a"])) =
      .ok (.obj [("queries", .arr [PyVal.str "a"]), ("count", .num 1)]) :=
  spec_C9.1 (DataFile.hasJson (.arr [PyVal.str "a"])) [PyVal.str "a"] rfl

/-- C3 (amended): `load_queries` returns the empty list when the file is
absent or its content fails JSON parsing, both of which the `except` clause
covers; but when the file exists and reading it fails with an exception
outside that clause — e.g. a `PermissionError` — the error propagates to the
caller instead of yielding the empty list. -/
theorem spec_C3 :
    load_queries DataFile.absent = .ok (.arr []) ∧
    load_queries DataFile.badJson = .ok (.arr []) ∧
    load_queries DataFile.unreadable = .error PyExn.permissionError :=
  ⟨rfl, rfl, rfl⟩

/-- Counterexample to C3 as stated: an unreadable persisted document is a
failing read, yet `load_queries` surfaces the error rather than returning
the empty list. -/
theorem spec_C3_cex :
    load_queries DataFile.unreadable = .error PyExn.permissionError ∧
    ¬ load_queries DataFile.unreadable = .ok (.arr []) := by
  refine ⟨rfl, ?_⟩
  intro h
  rw [show load_queries DataFile.unreadable = .error PyExn.permissionError
    from rfl] at h
  exact Except.noConfusion h

/-- The body-parsing policy in the words of the spec (§4.2): parse as a
structured JSON document; if that fails, parse as form-encoded pairs; if
that fails, fall back to the payload decoded as text with undecodable bytes
replaced rather than erroring. -/
def specBodyPolicyReplace (req : Request) : PyVal :=
  match req.jsonBody with
  | some v => v
  | none =>
    match req.formBody with
    | some kvs => strObj kvs
    | none => .obj [("raw_body", .str (pyDecodeReplace req.bodyBytes))]

/-- The body-parsing policy in the words of the spec as amended: same
fallback chain, but undecodable bytes in the raw-text fallback are dropped
(`errors="ignore"`) rather than replaced. -/
def specBodyPolicyIgnore (req : Request) : PyVal :=
  match req.jsonBody with
  | some v => v
  | none =>
    match req.formBody with
    | some kvs => strObj kvs
    | none => .obj [("raw_body", .str (pyDecodeIgnore req.bodyBytes))]

/-- A request whose payload is the single undecodable byte 0xFF and on which
both body parsers fail. -/
def rawReq : Request :=
  ⟨.POST, "/track-query", "http://testserver/track-query", [], [],
   [255], none, none, none⟩

/-- Counterexample to C4 as stated: on an undecodable payload the code drops
the bad byte (yielding `""`), while the spec's replace-policy would yield the
replacement character, so the stated fallback does not describe the code. -/
theorem spec_C4_cex :
    parseBody rawReq = .obj [("raw_body", .str "")] ∧
    specBodyPolicyReplace rawReq = .obj [("raw_body", .str "�")] ∧
    parseBody rawReq ≠ specBodyPolicyReplace rawReq := by
  refine ⟨rfl, rfl, ?_⟩
  intro h
  have h2 : PyVal.obj [("raw_body", PyVal.str "")]
      = PyVal.obj [("raw_body", PyVal.str "�")] := h
  injection h2 with h3
  injection h3 with h4 h5
  injection h4 with h6 h7
  injection h7 with h8
  exact absurd h8 (by decide)

/-- C4 (amended): the captured body is determined by the tried-in-order
policy — structured JSON first, then form pairs, then the raw-text fallback
with undecodable bytes dropped rather than erroring — and the record built
by capture carries exactly that body. -/
theorem spec_C4 : ∀ (req : Request) (query_id timestamp : String),
    parseBody req = specBodyPolicyIgnore req ∧
    getField "body" (mkQueryData req query_id timestamp (parseBody req)) =
      some (specBodyPolicyIgnore req) := by
  intro req query_id timestamp
  have hpb : parseBody req = specBodyPolicyIgnore req := by
    unfold parseBody specBodyPolicyIgnore requestJson requestForm
    cases req.jsonBody <;> cases req.formBody <;> rfl
  have hgf : getField "body" (mkQueryData req query_id timestamp (parseBody req))
      = some (parseBody req) := rfl
  exact ⟨hpb, by rw [hgf, hpb]⟩

/-- C7: on a `GET /track-query` request the middleware intercepts before
routing: whatever downstream handler `call_next` would dispatch to, the
result is the same (the handler is never reached), the response is exactly
the four-field acknowledgement `{message, query_id, timestamp,
query_params}`, the record is persisted, and the persisted record's body is
the empty dict. -/
theorem spec_C7 :
    ∀ (cn₁ cn₂ : Request → DataFile → Except PyExn (PyVal × DataFile))
      (query_id timestamp : String) (req : Request) (st : DataFile)
      (l : List PyVal),
    req.path = "/track-query" → req.method = Method.GET →
    load_queries st = .ok (.arr l) →
    log_queries cn₁ query_id timestamp req st
      = log_queries cn₂ query_id timestamp req st ∧
    log_queries cn₁ query_id timestamp req st =
      .ok (.obj [("message", .str "Query tracked successfully"),
                 ("query_id", .str query_id),
                 ("timestamp", .str timestamp),
                 ("query_params", qpObj req)],
           .hasJson (.arr
             ((l ++ [mkQueryData req query_id timestamp (PyVal.obj [])]).drop
              ((l ++ [mkQueryData req query_id timestamp (PyVal.obj [])]).length
                - 100)))) ∧
    getField "body" (mkQueryData req query_id timestamp (PyVal.obj []))
      = some (PyVal.obj []) := by
  intro cn₁ cn₂ query_id timestamp req st l hpath hmeth hld
  have key : ∀ cn : Request → DataFile → Except PyExn (PyVal × DataFile),
      log_queries cn query_id timestamp req st =
        .ok (.obj [("message", .str "Query tracked successfully"),
                   ("query_id", .str query_id),
                   ("timestamp", .str timestamp),
                   ("query_params", qpObj req)],
             .hasJson (.arr
               ((l ++ [mkQueryData req query_id timestamp (PyVal.obj [])]).drop
                ((l ++ [mkQueryData req query_id timestamp (PyVal.obj [])]).length
                  - 100)))) := by
    intro cn
    unfold log_queries
    rw [if_pos ⟨hpath, hmeth⟩, hmeth]
    rw [show (if Method.GET = Method.POST ∨ Method.GET = Method.PUT
        ∨ Method.GET = Method.PATCH then parseBodyMw req else PyVal.obj [])
      = PyVal.obj [] from rfl]
    rw [save_query_of_load _ st l hld]
  exact ⟨by rw [key cn₁, key cn₂], key cn₁, rfl⟩

/-- A bodyless GET request to the tracking path with one query parameter. -/
def getReq : Request :=
  ⟨.GET, "/track-query", "http://testserver/track-query?x=5", [("x", "5")],
   [], [], none, none, some "127.0.0.1"⟩

/-- Concrete instance for spec_C7: the middleware answers a GET the same
whether the downstream handler is the declared `track_query_get` or a
function that would raise, and it persists a record with empty body. -/
theorem spec_C7_witness :
    log_queries track_query_get "id-7" "ts7" getReq DataFile.absent
      = log_queries (fun _ _ => .error PyExn.typeError) "id-7" "ts7" getReq
          DataFile.absent ∧
    log_queries track_query_get "id-7" "ts7" getReq DataFile.absent =
      .ok (.obj [("message", .str "Query tracked successfully"),
                 ("query_id", .str "id-7"),
                 ("timestamp", .str "ts7"),
                 ("query_params", qpObj getReq)],
           .hasJson (.arr
             (([] ++ [mkQueryData getReq "id-7" "ts7" (PyVal.obj [])]).drop
              (([] ++ [mkQueryData getReq "id-7" "ts7" (PyVal.obj [])]).length
                - 100)))) ∧
    getField "body" (mkQueryData getReq "id-7" "ts7" (PyVal.obj []))
      = some (PyVal.obj []) :=
  spec_C7 track_query_get (fun _ _ => .error PyExn.typeError) "id-7" "ts7"
    getReq DataFile.absent [] rfl rfl rfl
